import Mathlib

/-!
# Verification of the sensai event-scoring and suspicion-aggregation engine

Shallow embedding of the core subsystem of the repository:

* `src/sensai-ai/src/api/utils/event_scoring.py` — the `EventScorer`
  classifier (`calculate_event_score`, `_calculate_enhanced_confidence`,
  `_should_flag_event`), `get_event_summary`, `analyze_event_patterns` and
  `score_exam_events`.
* `src/sensai-ai/src/api/websockets.py` — the `VivaSessionTracker` state
  machine and the `trigger_surprise_viva` orchestrator.
* `src/sensai-ai/src/api/routes/exam.py` — the analytics computation of
  `get_exam_analytics` (the per-event scoring loop, counters, the
  suspicious-activity score, and the pattern-analysis fallback).

Python floats are modelled as exact rationals (`ℚ`), timestamps as `ℤ`
(milliseconds), and the duck-typed `event_data` dictionaries as a record of
optional fields — exactly the keys the source ever reads — where
`Option.getD` mirrors `dict.get(key, default)`.  Functions that can raise
are modelled with `Except`.
-/

/-- `max(0.0, min(1.0, x))` — the final clamp of
`EventScorer._calculate_enhanced_confidence`. -/
def clamp01 (x : ℚ) : ℚ := max 0 (min 1 x)

theorem clamp01_nonneg (x : ℚ) : 0 ≤ clamp01 x := le_max_left 0 _

theorem clamp01_le_one (x : ℚ) : clamp01 x ≤ 1 :=
  max_le zero_le_one (min_le_left 1 x)

/-- The open key/value payload of a telemetry event: one optional field per
key that `EventScorer` ever reads with `event_data.get(...)`.  A missing
dictionary key is `none`; `Option.getD` plays the role of the Python
default. -/
structure EventData where
  length : Option ℚ := none
  paste_count : Option ℚ := none
  time_window : Option ℚ := none
  confidence : Option ℚ := none
  deviation_percentage : Option ℚ := none
  similarity_score : Option ℚ := none
  wpm : Option ℚ := none
  chars_typed : Option ℚ := none
  face_count : Option ℚ := none
  violation_duration : Option ℚ := none
  pattern_type : Option String := none
  velocity : Option ℚ := none
  looking_away : Option Bool := none
  duration_away : Option ℚ := none
  away_duration : Option ℚ := none
  confidence_score : Option ℚ := none
  multiple_speakers : Option Bool := none
  suspicious_phrases : Option (List String) := none
deriving Repr

/-- The empty Python dict `{}`. -/
def EventData.empty : EventData := {}

/-- `EventScorer.HIGH_PRIORITY_EVENTS`: event type → (base confidence,
description). -/
def HIGH_PRIORITY_EVENTS : List (String × ℚ × String) :=
  [("clipboard_paste", (8/10, "Copy-paste activity detected")),
   ("rapid_paste_burst", (95/100, "Multiple paste operations in short time")),
   ("keystroke_mismatch", (9/10, "Text appears without corresponding keystrokes")),
   ("content_similarity", (85/100, "Text similarity to external sources")),
   ("tab_switch", (9/10, "User navigated away from exam")),
   ("sudden_text_burst", (88/100, "Large amount of text appeared suddenly")),
   ("audio_assistance_detected", (8/10, "Background assistance detected in audio"))]

/-- `EventScorer.MEDIUM_PRIORITY_EVENTS`. -/
def MEDIUM_PRIORITY_EVENTS : List (String × ℚ × String) :=
  [("typing_pattern_anomaly", (7/10, "Unusual typing rhythm detected")),
   ("wpm_tracking", (6/10, "Significant WPM changes")),
   ("writing_style_drift", (65/100, "Writing style inconsistency")),
   ("mouse_movement", (6/10, "Suspicious mouse movement patterns")),
   ("face_count_violation", (75/100, "Multiple or no faces detected")),
   ("face_detection", (7/10, "Face detection anomalies")),
   ("window_focus", (5/10, "Window focus changes")),
   ("keystroke_anomaly", (6/10, "Unusual keystroke patterns"))]

/-- `EventScorer.LOW_PRIORITY_EVENTS`. -/
def LOW_PRIORITY_EVENTS : List (String × ℚ × String) :=
  [("gaze_tracking", (4/10, "Gaze direction changes")),
   ("video_start", (1/10, "Video recording started")),
   ("video_stop", (1/10, "Video recording stopped")),
   ("exam_started", (1/10, "Exam session began")),
   ("exam_submitted", (1/10, "Exam was submitted")),
   ("question_viewed", (1/10, "Question navigation")),
   ("answer_changed", (2/10, "Answer modification")),
   ("connection_established", (1/10, "WebSocket connection"))]

/-- The base priority / base confidence / description dispatch at the top of
`EventScorer.calculate_event_score`: high tier first, then medium, then low,
and unknown event types default to priority 2, confidence 0.5. -/
def base_event_info (event_type : String) : ℕ × ℚ × String :=
  match HIGH_PRIORITY_EVENTS.lookup event_type with
  | some (bc, desc) => (3, bc, desc)
  | none =>
    match MEDIUM_PRIORITY_EVENTS.lookup event_type with
    | some (bc, desc) => (2, bc, desc)
    | none =>
      match LOW_PRIORITY_EVENTS.lookup event_type with
      | some (bc, desc) => (1, bc, desc)
      | none => (2, 1/2, "Unknown event type: " ++ event_type)

/-- `EventScorer._calculate_enhanced_confidence`: per-type refinement of the
base confidence followed by the final clamp to `[0, 1]`.  Each branch
mirrors the corresponding `elif` of the source, with `Option.getD` standing
for `event_data.get(key, default)`. -/
def calculate_enhanced_confidence (event_type : String) (event_data : EventData)
    (base_confidence : ℚ) : ℚ :=
  let confidence :=
    if event_type = "clipboard_paste" then
      let length := event_data.length.getD 0
      if length > 500 then min (95/100) (base_confidence + 1/10)
      else if length > 100 then min (9/10) (base_confidence + 1/20)
      else base_confidence
    else if event_type = "rapid_paste_burst" then
      let paste_count := event_data.paste_count.getD 1
      let time_window := event_data.time_window.getD 5000 / 1000
      let c1 :=
        if paste_count ≥ 5 then min (98/100) (base_confidence + 3/100)
        else if paste_count ≥ 3 then min (95/100) (base_confidence + 2/100)
        else base_confidence
      if time_window ≤ 2 then min (98/100) (c1 + 3/100) else c1
    else if event_type = "typing_pattern_anomaly" then
      let existing_confidence := event_data.confidence.getD 0
      let deviation_percentage := event_data.deviation_percentage.getD 0
      if existing_confidence > 0 then existing_confidence
      else if deviation_percentage > 50 then min (9/10) (base_confidence + 2/10)
      else if deviation_percentage > 30 then min (8/10) (base_confidence + 1/10)
      else base_confidence
    else if event_type = "content_similarity" then
      let similarity_score := event_data.similarity_score.getD 0
      if similarity_score > 0 then similarity_score else base_confidence
    else if event_type = "writing_style_drift" then
      let similarity_score := event_data.similarity_score.getD 1
      max (1/10) (1 - similarity_score)
    else if event_type = "wpm_tracking" then
      let wpm := event_data.wpm.getD 0
      let chars_typed := event_data.chars_typed.getD 0
      if wpm > 120 then min (8/10) (base_confidence + 3/10)
      else if wpm < 5 ∧ chars_typed > 100 then min (7/10) (base_confidence + 2/10)
      else base_confidence
    else if event_type = "face_count_violation" then
      let face_count := event_data.face_count.getD 1
      let violation_duration := event_data.violation_duration.getD 0 / 1000
      let c1 :=
        if face_count = 0 then min (9/10) (base_confidence + 15/100)
        else if face_count > 1 then min (85/100) (base_confidence + 1/10)
        else base_confidence
      if violation_duration > 30 then min (95/100) (c1 + 1/10)
      else if violation_duration > 10 then min (9/10) (c1 + 1/20)
      else c1
    else if event_type = "mouse_movement" then
      let pt := event_data.pattern_type.getD "normal"
      let velocity := event_data.velocity.getD 0
      let c1 :=
        if pt = "suspicious" then min (8/10) (base_confidence + 2/10)
        else if pt = "rapid" then min (7/10) (base_confidence + 1/10)
        else base_confidence
      if velocity > 100 then min (8/10) (c1 + 1/10) else c1
    else if event_type = "gaze_tracking" then
      let looking_away := event_data.looking_away.getD false
      let confidence_from_data := event_data.confidence.getD (1/2)
      let duration_away := event_data.duration_away.getD 0
      let c1 :=
        if looking_away then
          let c := min (7/10) (base_confidence + 3/10)
          if duration_away > 10000 then min (8/10) (c + 1/10)
          else if duration_away > 5000 then min (7/10) (c + 1/20)
          else c
        else base_confidence
      if confidence_from_data > 0 then max c1 confidence_from_data else c1
    else if event_type = "tab_switch" then
      let away_duration := event_data.away_duration.getD 0 / 1000
      if away_duration > 30 then min (98/100) (base_confidence + 8/100)
      else if away_duration > 10 then min (95/100) (base_confidence + 1/20)
      else if away_duration > 5 then min (92/100) (base_confidence + 2/100)
      else base_confidence
    else if event_type = "audio_assistance_detected" then
      let existing_confidence := event_data.confidence_score.getD 0
      let multiple_speakers := event_data.multiple_speakers.getD false
      let suspicious_phrase_count := (event_data.suspicious_phrases.getD []).length
      let c1 := if existing_confidence > 0 then existing_confidence else base_confidence
      let c2 := if multiple_speakers then min (98/100) (c1 + 1/20) else c1
      if suspicious_phrase_count > 3 then min (95/100) (c2 + 8/100)
      else if suspicious_phrase_count > 1 then min (92/100) (c2 + 1/25)
      else c2
    else base_confidence
  clamp01 confidence

/-- `EventScorer._should_flag_event`. -/
def should_flag_event (priority : ℕ) (confidence_score : ℚ) (event_type : String)
    (event_data : EventData) : Bool :=
  if priority = 3 then decide (confidence_score > 6/10)
  else if priority = 2 then decide (confidence_score > 7/10)
  else if priority = 1 then
    if event_type = "gaze_tracking" then
      event_data.looking_away.getD false
        && decide (event_data.duration_away.getD 0 > 10000)
        && decide (confidence_score > 6/10)
    else false
  else false

/-- The classifier verdict: the `(priority, confidence_score, is_flagged,
description)` tuple returned by `EventScorer.calculate_event_score`. -/
structure ScoredVerdict where
  priority : ℕ
  confidence_score : ℚ
  is_flagged : Bool
  description : String
deriving Repr, DecidableEq

/-- `EventScorer.calculate_event_score`: base dispatch, enhanced confidence,
flagging decision. -/
def calculate_event_score (event_type : String) (event_data : EventData) :
    ScoredVerdict :=
  let info := base_event_info event_type
  let confidence_score := calculate_enhanced_confidence event_type event_data info.2.1
  { priority := info.1
    confidence_score := confidence_score
    is_flagged := should_flag_event info.1 confidence_score event_type event_data
    description := info.2.2 }

example : calculate_event_score "clipboard_paste" { length := some 600 } =
    { priority := 3, confidence_score := 9/10, is_flagged := true,
      description := "Copy-paste activity detected" } := by
  simp [calculate_event_score, calculate_enhanced_confidence, base_event_info,
    should_flag_event, clamp01, HIGH_PRIORITY_EVENTS, MEDIUM_PRIORITY_EVENTS,
    LOW_PRIORITY_EVENTS, List.lookup, ScoredVerdict.mk.injEq]
  norm_num

example : calculate_event_score "video_start" {} =
    { priority := 1, confidence_score := 1/10, is_flagged := false,
      description := "Video recording started" } := by
  simp [calculate_event_score, calculate_enhanced_confidence, base_event_info,
    should_flag_event, clamp01, HIGH_PRIORITY_EVENTS, MEDIUM_PRIORITY_EVENTS,
    LOW_PRIORITY_EVENTS, List.lookup, ScoredVerdict.mk.injEq]
  norm_num

example : calculate_event_score "gaze_tracking" {} =
    { priority := 1, confidence_score := 1/2, is_flagged := false,
      description := "Gaze direction changes" } := by
  simp [calculate_event_score, calculate_enhanced_confidence, base_event_info,
    should_flag_event, clamp01, HIGH_PRIORITY_EVENTS, MEDIUM_PRIORITY_EVENTS,
    LOW_PRIORITY_EVENTS, List.lookup, ScoredVerdict.mk.injEq]
  norm_num

/-!
## Session suspicion tracker (`VivaSessionTracker`, src/api/websockets.py)

The Python dictionaries `session_scores` / `session_flags` are modelled as
total maps into `Option` (a missing key is `none`), and the Python sets
`viva_triggered` / `viva_in_progress` as boolean membership predicates.
`add_event_score` initialises both dictionaries in lockstep exactly as the
source does (on the first event for a session both entries start at `0`), so
reading with `Option.getD 0` coincides with the source's explicit
zero-initialisation.
-/

/-- State of `VivaSessionTracker` (module-level singleton `viva_tracker`). -/
structure VivaSessionTracker where
  session_scores : String → Option ℚ
  session_flags : String → Option ℕ
  viva_triggered : String → Bool
  viva_in_progress : String → Bool

/-- The freshly constructed tracker: empty dictionaries and sets. -/
def VivaSessionTracker.init : VivaSessionTracker :=
  { session_scores := fun _ => none
    session_flags := fun _ => none
    viva_triggered := fun _ => false
    viva_in_progress := fun _ => false }

/-- `viva_threshold = 3.0`: cumulative score threshold. -/
def viva_threshold : ℚ := 3

/-- `flag_threshold = 3`: flagged-event count threshold. -/
def flag_threshold : ℕ := 3

/-- `VivaSessionTracker.add_event_score`: add `confidence * priority` to the
session's cumulative score and bump the flag count when the event is
flagged.  Priorities are the classifier's `1 / 2 / 3` tiers, hence `ℕ`. -/
def add_event_score (t : VivaSessionTracker) (session_id : String)
    (priority : ℕ) (confidence : ℚ) (is_flagged : Bool) : VivaSessionTracker :=
  let cur_score := (t.session_scores session_id).getD 0
  let cur_flags := (t.session_flags session_id).getD 0
  let weighted_score := confidence * priority
  { t with
    session_scores := fun s =>
      if s = session_id then some (cur_score + weighted_score) else t.session_scores s
    session_flags := fun s =>
      if s = session_id then some (if is_flagged then cur_flags + 1 else cur_flags)
      else t.session_flags s }

/-- `VivaSessionTracker.should_trigger_viva`: false once triggered or in
progress; otherwise true when either threshold is met. -/
def should_trigger_viva (t : VivaSessionTracker) (session_id : String) : Bool :=
  if t.viva_triggered session_id || t.viva_in_progress session_id then false
  else
    decide ((t.session_scores session_id).getD 0 ≥ viva_threshold)
      || decide ((t.session_flags session_id).getD 0 ≥ flag_threshold)

/-- `VivaSessionTracker.mark_viva_triggered`: adds the session to both the
`viva_triggered` and `viva_in_progress` sets. -/
def mark_viva_triggered (t : VivaSessionTracker) (session_id : String) :
    VivaSessionTracker :=
  { t with
    viva_triggered := fun s => if s = session_id then true else t.viva_triggered s
    viva_in_progress := fun s => if s = session_id then true else t.viva_in_progress s }

/-- `VivaSessionTracker.mark_viva_completed`: removes the session from
`viva_in_progress` only; `viva_triggered` is never cleared. -/
def mark_viva_completed (t : VivaSessionTracker) (session_id : String) :
    VivaSessionTracker :=
  { t with
    viva_in_progress := fun s => if s = session_id then false else t.viva_in_progress s }

/-- `VivaSessionTracker.is_viva_in_progress`. -/
def is_viva_in_progress (t : VivaSessionTracker) (session_id : String) : Bool :=
  t.viva_in_progress session_id

/-- One mutating call on the tracker, as issued by the websocket handler
(`add_event_score` per scored event, `mark_viva_triggered` from the
orchestrator, `mark_viva_completed` from the orchestrator's failure cleanup
or the client's `viva_completed` message).  `should_trigger_viva` and
`is_viva_in_progress` are read-only and do not appear. -/
inductive TrackerOp where
  | addEvent (session_id : String) (priority : ℕ) (confidence : ℚ) (is_flagged : Bool)
  | markTriggered (session_id : String)
  | markCompleted (session_id : String)

/-- Apply one tracker call. -/
def applyOp (t : VivaSessionTracker) : TrackerOp → VivaSessionTracker
  | .addEvent sid p c f => add_event_score t sid p c f
  | .markTriggered sid => mark_viva_triggered t sid
  | .markCompleted sid => mark_viva_completed t sid

/-- Run a sequence of tracker calls in order. -/
def runOps (t : VivaSessionTracker) (ops : List TrackerOp) : VivaSessionTracker :=
  ops.foldl applyOp t

/-!
## Viva challenge orchestrator (`trigger_surprise_viva`, src/api/websockets.py)

The orchestrator's external collaborators (exam store, OpenAI credential,
LLM question generation, question persistence and websocket push) are
modelled as an environment record describing each call's outcome; the
orchestrator itself is the control flow of the source, acting on the
tracker state.  `persistence_raises` covers any exception raised after
question generation (database insert or push), which the source's outer
`try/except` catches and answers with `mark_viva_completed` plus `False`.
-/

/-- Outcomes of the orchestrator's external calls. -/
structure VivaEnv where
  /-- the exam row exists in the exam store -/
  exam_found : Bool
  /-- `settings.openai_api_key` is configured -/
  api_key_present : Bool
  /-- `generate_surprise_viva_questions` raises -/
  generation_raises : Bool
  /-- the `viva_questions` list of the generation result -/
  generated_questions : List String
  /-- storing/pushing the generated questions raises -/
  persistence_raises : Bool

/-- `trigger_surprise_viva(session_id, exam_id, suspicious_events)`: returns
the boolean result together with the updated tracker state.  Control flow of
the source: skip when a viva is already in progress; mark triggered+in
progress; return `False` with no cleanup when the exam row is missing;
on missing API key, generation error or empty question set, call
`mark_viva_completed` and return `False`; on a later exception the outer
`except` also calls `mark_viva_completed` and returns `False`; on success
return `True` (the viva stays in progress until the client completes it). -/
def trigger_surprise_viva (t : VivaSessionTracker) (session_id : String)
    (env : VivaEnv) : Bool × VivaSessionTracker :=
  if is_viva_in_progress t session_id then (false, t)
  else
    let t1 := mark_viva_triggered t session_id
    if !env.exam_found then (false, t1)
    else if !env.api_key_present then (false, mark_viva_completed t1 session_id)
    else if env.generation_raises then (false, mark_viva_completed t1 session_id)
    else if env.generated_questions.isEmpty then
      (false, mark_viva_completed t1 session_id)
    else if env.persistence_raises then (false, mark_viva_completed t1 session_id)
    else (true, t1)

/-!
## Pattern analyzer (`EventScorer.analyze_event_patterns`, event_scoring.py)

The input is the list of (pre-scored) event dictionaries handed over by
`get_exam_analytics` or `score_exam_events`; the analyzer reads their
`event_type`, `timestamp` and `event_data` keys.  Python's `sorted` (a
stable sort by timestamp) is modelled with `List.mergeSort`, which is also
stable.

Pattern 4 of the source reads the undefined name `wmp_values` (a typo for
`wpm_values`) at `max_wpm = max(wmp_values)`, so whenever at least five
`wpm_tracking` events are present the function raises `NameError`; the
result type is therefore `Except String`, with `.error` standing for the
raised exception.  Description strings abstract the Python f-string number
formatting; the numeric payload is kept in structured fields.  The
`pattern_count` / `warning_count` keys of the returned dict are the lengths
of the two lists and are read by no caller, so they are not separate
fields here.
-/

/-- An event as seen by the pattern analyzer. -/
structure AnalyzerEvent where
  event_type : String
  event_data : EventData
  timestamp : ℤ
  confidence_score : ℚ := 0
deriving Repr

/-- One entry of the `patterns` list: `type` / `description` / `severity`
plus the type-specific supporting fields. -/
structure SuspiciousPattern where
  type : String
  description : String
  severity : String
  events : Option ℕ := none
  tab_time : Option ℤ := none
  typing_events : Option ℕ := none
deriving Repr, DecidableEq

/-- The `{'patterns': ..., 'warnings': ...}` result dict. -/
structure PatternResult where
  patterns : List SuspiciousPattern
  warnings : List String
deriving Repr, DecidableEq

/-- `EventScorer.analyze_event_patterns`. -/
def analyze_event_patterns (events : List AnalyzerEvent) :
    Except String PatternResult :=
  if events.isEmpty then .ok { patterns := [], warnings := [] }
  else
    let sorted_events := events.mergeSort fun a b => decide (a.timestamp ≤ b.timestamp)
    let paste_events := sorted_events.filter fun e =>
      e.event_type == "clipboard_paste" || e.event_type == "rapid_paste_burst"
    let pasteRes : List SuspiciousPattern × List String :=
      if paste_events.length ≥ 3 then
        let first_ts := (paste_events.head?.map (·.timestamp)).getD 0
        let last_ts := (paste_events.getLast?.map (·.timestamp)).getD 0
        let time_span : ℚ := ((last_ts - first_ts : ℤ) : ℚ) / 1000 / 60
        if time_span < 10 then
          ([{ type := "frequent_paste_operations"
              description := "paste operations within a short span of minutes"
              severity := "High"
              events := some paste_events.length }],
           ["Multiple paste operations detected in short time period"])
        else ([], [])
      else ([], [])
    let tab_switches := sorted_events.filter fun e => e.event_type == "tab_switch"
    let typing_events := sorted_events.filter fun e =>
      e.event_type == "typing_pattern_anomaly" || e.event_type == "wpm_tracking"
    let tabRes : List SuspiciousPattern × List String :=
      tab_switches.foldl
        (fun acc tab_event =>
          let tab_time := tab_event.timestamp
          let quick_typing := typing_events.filter fun e =>
            decide (|e.timestamp - tab_time| < 30000) && decide (e.timestamp > tab_time)
          if quick_typing.isEmpty then acc
          else
            (acc.1 ++ [{ type := "tab_switch_quick_typing"
                         description := "Fast typing detected after tab switch"
                         severity := "High"
                         tab_time := some tab_time
                         typing_events := some quick_typing.length }],
             acc.2 ++ ["Suspicious typing pattern after navigating away"]))
        ([], [])
    let face_violations := sorted_events.filter fun e =>
      e.event_type == "face_count_violation"
    let faceRes : List SuspiciousPattern × List String :=
      if face_violations.length > 5 then
        ([{ type := "frequent_face_violations"
            description := "face detection violations"
            severity := "Medium"
            events := some face_violations.length }],
         ["Frequent face detection issues may indicate attempt to avoid monitoring"])
      else ([], [])
    let wpm_events := sorted_events.filter fun e => e.event_type == "wpm_tracking"
    if wpm_events.length ≥ 5 then
      .error "NameError: name wmp_values is not defined"
    else
      .ok { patterns := pasteRes.1 ++ tabRes.1 ++ faceRes.1
            warnings := pasteRes.2 ++ tabRes.2 ++ faceRes.2 }

/-!
## Analytics endpoint (`get_exam_analytics`, src/api/routes/exam.py)

Only the analytics computation itself is modelled: the permission checks
and the 404/403/500 HTTP plumbing around it are out of scope, and the
input is the session's event rows already ordered by timestamp as delivered
by the `ORDER BY timestamp ASC` query.  The endpoint's per-event
`try/except` around `EventScorer.calculate_event_score` is dead in this
model because the embedded scorer is total, and the `step_timeline`
progress display is not needed by any claim and is omitted.  The
`try/except` around the pattern analysis is modelled by matching on the
`Except` result: an exception degrades to an empty pattern list.
-/

/-- A stored event row: `(event_type, event_data, timestamp)`. -/
structure RawEvent where
  event_type : String
  event_data : EventData
  timestamp : ℤ
deriving Repr

/-- One element of the endpoint's `events` timeline (the fields of
`ExamTimelineEvent` that the analytics computation produces from scoring;
ids and created-at metadata are presentation only). -/
structure TimelineEvent where
  event_type : String
  event_data : EventData
  timestamp : ℤ
  priority : ℕ
  confidence_score : ℚ
  is_flagged : Bool
deriving Repr

/-- One element of the endpoint's `suspicious_patterns` list. -/
structure PatternDescription where
  pattern : String
  severity : String
  description : String
  details : SuspiciousPattern
deriving Repr, DecidableEq

/-- Accumulator of the endpoint's `async for row in cursor` loop. -/
structure AnalyticsAcc where
  total_events : ℕ
  flagged_events : ℕ
  high_priority_events : ℕ
  confidence_scores : List ℚ
  events : List TimelineEvent

/-- One iteration of the endpoint's event loop: score the row, bump the
counters (`high_priority_events` only for flagged priority-3 events) and
append to the timeline. -/
def analytics_step (acc : AnalyticsAcc) (row : RawEvent) : AnalyticsAcc :=
  let v := calculate_event_score row.event_type row.event_data
  { total_events := acc.total_events + 1
    flagged_events := acc.flagged_events + (if v.is_flagged then 1 else 0)
    high_priority_events :=
      acc.high_priority_events +
        (if v.is_flagged then (if v.priority = 3 then 1 else 0) else 0)
    confidence_scores := acc.confidence_scores ++ [v.confidence_score]
    events := acc.events ++
      [{ event_type := row.event_type, event_data := row.event_data,
         timestamp := row.timestamp, priority := v.priority,
         confidence_score := v.confidence_score, is_flagged := v.is_flagged }] }

/-- The analytics payload (`ExamAnalytics`) fields produced by the
computation. -/
structure ExamAnalytics where
  total_events : ℕ
  flagged_events : ℕ
  high_priority_events : ℕ
  average_confidence_score : ℚ
  suspicious_activity_score : ℚ
  timeline_events : List TimelineEvent
  suspicious_patterns : List PatternDescription
deriving Repr

/-- The `all_events` list the endpoint hands to
`EventScorer.analyze_event_patterns` (event type, payload, timestamp and
confidence score of each timeline event). -/
def analytics_events (rows : List RawEvent) : List AnalyzerEvent :=
  rows.map fun r =>
    { event_type := r.event_type, event_data := r.event_data,
      timestamp := r.timestamp,
      confidence_score := (calculate_event_score r.event_type r.event_data).confidence_score }

/-- `get_exam_analytics` (analytics computation): run the scoring loop over
the rows, average the confidences, compute
`min(1.0, flagged / max(total, 1) * 2)` when any event exists, and attach
the pattern descriptions — an empty list when the pattern analysis raises. -/
def get_exam_analytics (rows : List RawEvent) : ExamAnalytics :=
  let acc := rows.foldl analytics_step
    { total_events := 0, flagged_events := 0, high_priority_events := 0,
      confidence_scores := [], events := [] }
  let avg_confidence :=
    if acc.confidence_scores.isEmpty then 0
    else acc.confidence_scores.sum / acc.confidence_scores.length
  let suspicious_score :=
    if acc.total_events > 0 then
      min 1 ((acc.flagged_events : ℚ) / (max acc.total_events 1 : ℕ) * 2)
    else 0
  let all_events := acc.events.map fun e =>
    { event_type := e.event_type, event_data := e.event_data,
      timestamp := e.timestamp, confidence_score := e.confidence_score : AnalyzerEvent }
  let pattern_descriptions :=
    match analyze_event_patterns all_events with
    | .ok r => r.patterns.map fun p =>
        { pattern := p.type, severity := p.severity,
          description := p.description, details := p }
    | .error _ => []
  { total_events := acc.total_events
    flagged_events := acc.flagged_events
    high_priority_events := acc.high_priority_events
    average_confidence_score := avg_confidence
    suspicious_activity_score := suspicious_score
    timeline_events := acc.events
    suspicious_patterns := pattern_descriptions }

/-!
## Event summary (`EventScorer.get_event_summary` and `score_exam_events`)

`round(x, 3)` is modelled as `round (x * 1000) / 1000`; Mathlib's `round`
rounds half away from the floor while Python rounds half to even, which can
differ only when `x * 1000` is an exact half-integer — no claim depends on
the rounded fields.  The top-5 `most_suspicious_events` are kept as scored
events rather than re-projected display dicts.
-/

/-- Round to three decimal places, Python's `round(x, 3)`. -/
def round3 (x : ℚ) : ℚ := (round (x * 1000) : ℤ) / 1000

/-- A scored event as built by `score_exam_events`: the raw event plus the
classifier verdict. -/
structure ScoredEvent where
  event_type : String
  event_data : EventData
  timestamp : ℤ
  priority : ℕ
  confidence_score : ℚ
  is_flagged : Bool
  description : String
deriving Repr

/-- The summary dict returned by `EventScorer.get_event_summary`. -/
structure EventSummary where
  total_events : ℕ
  flagged_events : ℕ
  high_priority_events : ℕ
  medium_priority_events : ℕ
  low_priority_events : ℕ
  average_confidence : ℚ
  risk_level : String
  flagged_ratio : ℚ
  most_suspicious_events : List ScoredEvent
deriving Repr

/-- `EventScorer.get_event_summary`: early return on an empty history,
otherwise counts, averages, the risk level thresholds and the top-5
flagged high-confidence events (stable sort descending by confidence). -/
def get_event_summary (events : List ScoredEvent) : EventSummary :=
  if events.isEmpty then
    { total_events := 0, flagged_events := 0, high_priority_events := 0,
      medium_priority_events := 0, low_priority_events := 0,
      average_confidence := 0, risk_level := "Low", flagged_ratio := 0,
      most_suspicious_events := [] }
  else
    let total_events := events.length
    let flagged_events := events.countP (·.is_flagged)
    let high_priority_events := events.countP fun e => e.priority == 3
    let medium_priority_events := events.countP fun e => e.priority == 2
    let low_priority_events := events.countP fun e => e.priority == 1
    let confidence_scores := events.map (·.confidence_score)
    let average_confidence :=
      if confidence_scores.isEmpty then 0
      else confidence_scores.sum / confidence_scores.length
    let flagged_ratio :=
      if total_events > 0 then (flagged_events : ℚ) / total_events else 0
    let high_priority_ratio :=
      if total_events > 0 then (high_priority_events : ℚ) / total_events else 0
    let risk_level :=
      if flagged_ratio > 3/10 ∨ high_priority_ratio > 2/10 ∨ average_confidence > 8/10
      then "High"
      else if flagged_ratio > 15/100 ∨ high_priority_ratio > 1/10 ∨ average_confidence > 6/10
      then "Medium"
      else "Low"
    let suspicious_events := events.filter fun e =>
      e.is_flagged && decide (e.confidence_score > 7/10)
    let most_suspicious :=
      (suspicious_events.mergeSort fun a b =>
        decide (b.confidence_score ≤ a.confidence_score)).take 5
    { total_events := total_events
      flagged_events := flagged_events
      high_priority_events := high_priority_events
      medium_priority_events := medium_priority_events
      low_priority_events := low_priority_events
      average_confidence := round3 average_confidence
      risk_level := risk_level
      flagged_ratio := round3 flagged_ratio
      most_suspicious_events := most_suspicious }

/-- `score_exam_events`: score every stored event row with the classifier
(the `event_data` JSON string parsing of the source is already absorbed by
the `EventData` payload model). -/
def score_exam_events (rows : List RawEvent) : List ScoredEvent :=
  rows.map fun r =>
    let v := calculate_event_score r.event_type r.event_data
    { event_type := r.event_type, event_data := r.event_data,
      timestamp := r.timestamp, priority := v.priority,
      confidence_score := v.confidence_score, is_flagged := v.is_flagged,
      description := v.description }

/-!
## Helper lemmas
-/

theorem calculate_enhanced_confidence_bounds (event_type : String)
    (event_data : EventData) (b : ℚ) :
    0 ≤ calculate_enhanced_confidence event_type event_data b ∧
      calculate_enhanced_confidence event_type event_data b ≤ 1 := by
  unfold calculate_enhanced_confidence
  exact ⟨clamp01_nonneg _, clamp01_le_one _⟩

theorem applyOp_triggered (t : VivaSessionTracker) (op : TrackerOp) (sid : String)
    (h : t.viva_triggered sid = true) : (applyOp t op).viva_triggered sid = true := by
  cases op with
  | addEvent sid' p c f => simpa [applyOp, add_event_score] using h
  | markTriggered sid' =>
    simp only [applyOp, mark_viva_triggered]
    by_cases hs : sid = sid' <;> simp [hs, h]
  | markCompleted sid' => simpa [applyOp, mark_viva_completed] using h

theorem runOps_triggered (t : VivaSessionTracker) (ops : List TrackerOp)
    (sid : String) (h : t.viva_triggered sid = true) :
    (runOps t ops).viva_triggered sid = true := by
  induction ops generalizing t with
  | nil => exact h
  | cons op rest ih =>
    simpa [runOps, List.foldl_cons] using ih (applyOp t op) (applyOp_triggered t op sid h)

/-!
## Claim theorems
-/

/-- C1.  At-most-once viva trigger: once `mark_viva_triggered(session_id)`
has run, `should_trigger_viva(session_id)` returns false after every later
sequence of `add_event_score` / `mark_viva_triggered` /
`mark_viva_completed` calls — including after `mark_viva_completed` and no
matter how far the score and flag thresholds are exceeded again. -/
theorem viva_triggered_at_most_once (t : VivaSessionTracker) (session_id : String)
    (ops : List TrackerOp) :
    should_trigger_viva (runOps (mark_viva_triggered t session_id) ops) session_id
      = false := by
  have h : (runOps (mark_viva_triggered t session_id) ops).viva_triggered session_id
      = true :=
    runOps_triggered _ _ _ (by simp [mark_viva_triggered])
  simp [should_trigger_viva, h]

/-- C7.  Confidence bounds: for every event type and payload — including
payloads whose `similarity_score` / `confidence` / `confidence_score`
fields lie outside `[0, 1]` — the confidence returned by
`calculate_event_score` lies in `[0.0, 1.0]`. -/
theorem confidence_score_in_unit_interval (event_type : String)
    (event_data : EventData) :
    0 ≤ (calculate_event_score event_type event_data).confidence_score ∧
      (calculate_event_score event_type event_data).confidence_score ≤ 1 :=
  calculate_enhanced_confidence_bounds event_type event_data _

/-- Sequence of raw `add_event_score` calls, each
`(session_id, priority, confidence, is_flagged)`. -/
def runAdds (t : VivaSessionTracker)
    (calls : List (String × ℕ × ℚ × Bool)) : VivaSessionTracker :=
  calls.foldl (fun s c => add_event_score s c.1 c.2.1 c.2.2.1 c.2.2.2) t

theorem add_event_score_le (t : VivaSessionTracker) (sid sid' : String)
    (p : ℕ) (conf : ℚ) (fl : Bool) (h : 0 ≤ conf) :
    (t.session_scores sid).getD 0
        ≤ ((add_event_score t sid' p conf fl).session_scores sid).getD 0 ∧
      (t.session_flags sid).getD 0
        ≤ ((add_event_score t sid' p conf fl).session_flags sid).getD 0 := by
  constructor
  · by_cases hs : sid = sid'
    · subst hs
      have hval : ((add_event_score t sid p conf fl).session_scores sid).getD 0
          = (t.session_scores sid).getD 0 + conf * p := by
        simp only [add_event_score, if_pos rfl]
        rfl
      rw [hval]
      exact le_add_of_nonneg_right (mul_nonneg h (by positivity))
    · simp [add_event_score, hs]
  · by_cases hs : sid = sid'
    · subst hs
      have hval : ((add_event_score t sid p conf fl).session_flags sid).getD 0
          = if fl then (t.session_flags sid).getD 0 + 1
            else (t.session_flags sid).getD 0 := by
        simp only [add_event_score, if_pos rfl]
        rfl
      rw [hval]
      cases fl <;> simp
    · simp [add_event_score, hs]

theorem runAdds_le (t : VivaSessionTracker) (sid : String)
    (calls : List (String × ℕ × ℚ × Bool)) (h : ∀ c ∈ calls, 0 ≤ c.2.2.1) :
    (t.session_scores sid).getD 0
        ≤ ((runAdds t calls).session_scores sid).getD 0 ∧
      (t.session_flags sid).getD 0
        ≤ ((runAdds t calls).session_flags sid).getD 0 := by
  induction calls generalizing t with
  | nil => exact ⟨le_refl _, le_refl _⟩
  | cons c rest ih =>
    have hc : 0 ≤ c.2.2.1 := h c (List.mem_cons_self c rest)
    have hstep := add_event_score_le t sid c.1 c.2.1 c.2.2.1 c.2.2.2 hc
    have hrest := ih (add_event_score t c.1 c.2.1 c.2.2.1 c.2.2.2)
      fun x hx => h x (List.mem_cons_of_mem c hx)
    simp only [runAdds, List.foldl_cons] at hrest ⊢
    exact ⟨hstep.1.trans hrest.1, hstep.2.trans hrest.2⟩

/-- C6.  Tracker increments and monotonicity: each `add_event_score` call
adds exactly `confidence * priority` to the session's cumulative score
(whatever `is_flagged` is) and adds `1` to the flag count exactly when the
event is flagged; and across any sequence of `add_event_score` calls with
non-negative confidences, the cumulative score and flag count of every
session never decrease. -/
theorem add_event_score_increment_and_mono :
    (∀ (t : VivaSessionTracker) (session_id : String) (priority : ℕ)
        (confidence : ℚ) (is_flagged : Bool),
      (((add_event_score t session_id priority confidence is_flagged).session_scores
            session_id).getD 0
          = (t.session_scores session_id).getD 0 + confidence * priority) ∧
      (((add_event_score t session_id priority confidence is_flagged).session_flags
            session_id).getD 0
          = (t.session_flags session_id).getD 0 + (if is_flagged then 1 else 0))) ∧
    (∀ (t : VivaSessionTracker) (session_id : String)
        (calls : List (String × ℕ × ℚ × Bool)),
      (∀ c ∈ calls, 0 ≤ c.2.2.1) →
      (t.session_scores session_id).getD 0
          ≤ ((runAdds t calls).session_scores session_id).getD 0 ∧
        (t.session_flags session_id).getD 0
          ≤ ((runAdds t calls).session_flags session_id).getD 0) := by
  constructor
  · intro t sid p conf fl
    constructor
    · simp [add_event_score]
    · have hval : ((add_event_score t sid p conf fl).session_flags sid).getD 0
          = if fl then (t.session_flags sid).getD 0 + 1
            else (t.session_flags sid).getD 0 := by
        simp only [add_event_score, if_pos rfl]
        rfl
      rw [hval]
      cases fl <;> simp
  · exact fun t sid calls h => runAdds_le t sid calls h

/-- Witness for C6 at a concrete input: one flagged event of priority 3 and
confidence 0.8 on a fresh tracker adds 2.4 to the score and 1 to the flag
count, and a non-negative-confidence sequence never decreases either. -/
theorem add_event_score_increment_and_mono_witness :
    (((add_event_score VivaSessionTracker.init "s1" 3 (8/10) true).session_scores
          "s1").getD 0
        = (VivaSessionTracker.init.session_scores "s1").getD 0 + (8/10) * 3) ∧
    (((add_event_score VivaSessionTracker.init "s1" 3 (8/10) true).session_flags
          "s1").getD 0
        = (VivaSessionTracker.init.session_flags "s1").getD 0 + 1) ∧
    ((VivaSessionTracker.init.session_scores "s1").getD 0
        ≤ ((runAdds VivaSessionTracker.init [("s1", 3, 8/10, true)]).session_scores
            "s1").getD 0) := by
  refine ⟨(add_event_score_increment_and_mono.1 VivaSessionTracker.init "s1" 3 (8/10) true).1,
    ?_, (add_event_score_increment_and_mono.2 VivaSessionTracker.init "s1"
      [("s1", 3, 8/10, true)] ?_).1⟩
  · have h := (add_event_score_increment_and_mono.1 VivaSessionTracker.init "s1" 3
      (8/10) true).2
    simpa using h
  · intro c hc
    simp only [List.mem_singleton] at hc
    subst hc
    norm_num

/-- C2 counterexample: on a fresh tracker, a single
`add_event_score(session_id, 3, 0.8, true)` contributes `2.4 < 3.0` with a
flag count of `1 < 3`, so `should_trigger_viva` returns false after the
first event — the claim says it returns true. -/
theorem single_weighted_event_does_not_trigger :
    should_trigger_viva
      (add_event_score VivaSessionTracker.init "session-1" 3 (8/10) true)
      "session-1" = false := by
  simp [should_trigger_viva, add_event_score, VivaSessionTracker.init,
    viva_threshold, flag_threshold]
  norm_num

/-- C2 amended: a single weighted contribution of `2.4` does not reach the
`3.0` threshold, so `should_trigger_viva` still returns false after the
first `add_event_score(session_id, 3, 0.8, true)` call; the cumulative
score crosses the threshold with the second such event (`4.8 ≥ 3.0`), at
which point `should_trigger_viva` returns true. -/
theorem viva_triggers_after_second_weighted_event :
    should_trigger_viva
      (add_event_score VivaSessionTracker.init "session-1" 3 (8/10) true)
      "session-1" = false ∧
    should_trigger_viva
      (add_event_score
        (add_event_score VivaSessionTracker.init "session-1" 3 (8/10) true)
        "session-1" 3 (8/10) true)
      "session-1" = true := by
  constructor
  · simp [should_trigger_viva, add_event_score, VivaSessionTracker.init,
      viva_threshold, flag_threshold]
    norm_num
  · simp [should_trigger_viva, add_event_score, VivaSessionTracker.init,
      viva_threshold, flag_threshold]
    norm_num

theorem clamp01_eq_self {y : ℚ} (h0 : 0 ≤ y) (h1 : y ≤ 1) : clamp01 y = y := by
  unfold clamp01
  rw [min_eq_right h1, max_eq_right h0]

/-- The gaze-tracking confidence computed from the base `0.4` plus the
`looking_away` / `duration_away` refinements alone — before the source
compares it with the event-supplied `confidence` field. -/
def gaze_refined_confidence (event_data : EventData) : ℚ :=
  if event_data.looking_away.getD false then
    let c := min (7/10) (4/10 + 3/10)
    if event_data.duration_away.getD 0 > 10000 then min (8/10) (c + 1/10)
    else if event_data.duration_away.getD 0 > 5000 then min (7/10) (c + 1/20)
    else c
  else 4/10

theorem gaze_refined_confidence_bounds (event_data : EventData) :
    4/10 ≤ gaze_refined_confidence event_data ∧
      gaze_refined_confidence event_data ≤ 8/10 := by
  unfold gaze_refined_confidence
  split_ifs <;> norm_num

/-- C8 counterexample: `calculate_event_score("gaze_tracking", {})` returns
confidence `0.5`, not the claimed `0.4`: the missing `confidence` field
defaults to `0.5` (not to absence), and `max(0.4, 0.5)` lifts the base. -/
theorem gaze_empty_payload_confidence_is_half :
    (calculate_event_score "gaze_tracking" EventData.empty).confidence_score = 1/2 ∧
    (calculate_event_score "gaze_tracking" EventData.empty).confidence_score ≠ 4/10 := by
  have h : (calculate_event_score "gaze_tracking" EventData.empty).confidence_score
      = 1/2 := by
    simp [calculate_event_score, calculate_enhanced_confidence, base_event_info,
      clamp01, HIGH_PRIORITY_EVENTS, MEDIUM_PRIORITY_EVENTS, LOW_PRIORITY_EVENTS,
      List.lookup, EventData.empty]
    norm_num
  refine ⟨h, ?_⟩
  rw [h]
  norm_num

/-- C8 amended: for every `gaze_tracking` payload lacking the `confidence`
key the scorer never raises and returns
`max(base-plus-refinements, 0.5)` — the source's
`event_data.get('confidence', 0.5)` defaults the missing field to `0.5`,
which is positive, so the `max` with the computed confidence always
applies (rather than only when the field is present). -/
theorem gaze_missing_confidence_maxes_with_half (event_data : EventData)
    (h : event_data.confidence = none) :
    (calculate_event_score "gaze_tracking" event_data).confidence_score
      = max (gaze_refined_confidence event_data) (1/2) := by
  have hbounds := gaze_refined_confidence_bounds event_data
  have hbase : (calculate_event_score "gaze_tracking" event_data).confidence_score
      = calculate_enhanced_confidence "gaze_tracking" event_data (4/10) := rfl
  rw [hbase]
  have hx : calculate_enhanced_confidence "gaze_tracking" event_data (4/10)
      = clamp01 (max (gaze_refined_confidence event_data) (1/2)) := by
    simp only [calculate_enhanced_confidence, gaze_refined_confidence, h,
      Option.getD_none]
    norm_num
    simp
  rw [hx]
  refine clamp01_eq_self (by positivity) ?_
  have h8 : gaze_refined_confidence event_data ≤ 8/10 := hbounds.2
  rw [max_le_iff]
  constructor <;> linarith

/-- Witness for C8's amended theorem at a concrete input: a payload with
`looking_away = true`, `duration_away = 12000` and no `confidence` key
scores `max(0.8, 0.5) = 0.8`. -/
theorem gaze_missing_confidence_maxes_with_half_witness :
    ({ looking_away := some true, duration_away := some 12000 :
        EventData }).confidence = none ∧
    (calculate_event_score "gaze_tracking"
        { looking_away := some true, duration_away := some 12000 }).confidence_score
      = max (gaze_refined_confidence
          { looking_away := some true, duration_away := some 12000 }) (1/2) := by
  refine ⟨rfl, gaze_missing_confidence_maxes_with_half _ rfl⟩

/-- C5 counterexample: when the exam row is missing from the exam store,
`trigger_surprise_viva` returns `False` but does not remove the session
from `viva_in_progress` — the early `return False` after the exam fetch
skips the `mark_viva_completed` cleanup that every other failure path
performs, contradicting the claim that every failing invocation removes
the session from the in-progress set. -/
theorem exam_not_found_leaves_viva_in_progress :
    (trigger_surprise_viva VivaSessionTracker.init "session-1"
        { exam_found := false, api_key_present := true, generation_raises := false,
          generated_questions := ["q1"], persistence_raises := false }).1 = false ∧
    ((trigger_surprise_viva VivaSessionTracker.init "session-1"
        { exam_found := false, api_key_present := true, generation_raises := false,
          generated_questions := ["q1"], persistence_raises := false }).2).viva_in_progress
        "session-1" = true := by
  constructor <;> rfl

/-- C5 amended: for every invocation of `trigger_surprise_viva` on a session
with no viva in progress whose exam row exists, every failure — missing
OpenAI API key, an exception from the question-generation call, an empty
generated question set, or an exception while persisting/pushing the
questions — returns `False` without raising, removes the session from
`viva_in_progress`, and leaves it in `viva_triggered`; only the
exam-not-found early return (and the already-in-progress skip) leaves the
in-progress marker set. -/
theorem orchestrator_failure_reverts_in_progress (t : VivaSessionTracker)
    (session_id : String) (env : VivaEnv)
    (hprog : is_viva_in_progress t session_id = false)
    (hexam : env.exam_found = true)
    (hfail : env.api_key_present = false ∨ env.generation_raises = true ∨
      env.generated_questions = [] ∨ env.persistence_raises = true) :
    (trigger_surprise_viva t session_id env).1 = false ∧
    ((trigger_surprise_viva t session_id env).2).viva_in_progress session_id
        = false ∧
    ((trigger_surprise_viva t session_id env).2).viva_triggered session_id
        = true := by
  rcases hfail with h | h | h | h <;>
    cases hk : env.api_key_present <;>
    cases hg : env.generation_raises <;>
    cases hq : env.generated_questions <;>
    cases hp : env.persistence_raises <;>
    simp_all [trigger_surprise_viva, is_viva_in_progress, mark_viva_completed,
      mark_viva_triggered]

/-- Witness for C5's amended theorem: a fresh tracker, an existing exam and
a missing API key — the call fails, the in-progress marker is cleared and
the triggered marker stays. -/
theorem orchestrator_failure_reverts_in_progress_witness :
    (trigger_surprise_viva VivaSessionTracker.init "session-1"
        { exam_found := true, api_key_present := false, generation_raises := false,
          generated_questions := [], persistence_raises := false }).1 = false ∧
    ((trigger_surprise_viva VivaSessionTracker.init "session-1"
        { exam_found := true, api_key_present := false, generation_raises := false,
          generated_questions := [], persistence_raises := false }).2).viva_in_progress
        "session-1" = false ∧
    ((trigger_surprise_viva VivaSessionTracker.init "session-1"
        { exam_found := true, api_key_present := false, generation_raises := false,
          generated_questions := [], persistence_raises := false }).2).viva_triggered
        "session-1" = true :=
  orchestrator_failure_reverts_in_progress _ _ _ rfl rfl (Or.inl rfl)

theorem analyze_event_patterns_error_of_five_wpm (events : List AnalyzerEvent)
    (h5 : 5 ≤ (events.filter fun e => e.event_type == "wpm_tracking").length) :
    analyze_event_patterns events
      = .error "NameError: name wmp_values is not defined" := by
  have hne : events.isEmpty = false := by
    cases events with
    | nil => simp at h5
    | cons a l => rfl
  have hperm : ((events.mergeSort fun a b => decide (a.timestamp ≤ b.timestamp)).filter
      fun e => e.event_type == "wpm_tracking").length
      = (events.filter fun e => e.event_type == "wpm_tracking").length :=
    ((List.mergeSort_perm events _).filter _).length_eq
  have hcond : 5 ≤ ((events.mergeSort fun a b => decide (a.timestamp ≤ b.timestamp)).filter
      fun e => e.event_type == "wpm_tracking").length := by
    rw [hperm]
    exact h5
  simp only [analyze_event_patterns, hne, Bool.false_eq_true, if_false]
  rw [if_pos hcond]

/-- C3.  Code bug: whenever a session's history contains at least five
`wpm_tracking` events, `EventScorer.analyze_event_patterns` raises
`NameError` — pattern 4 reads the undefined name `wmp_values` (a typo for
`wpm_values`) at `max_wpm = max(wmp_values)` — instead of returning the
`extreme_wpm_variation` pattern the spec describes.  The error fires before
the variation condition is even evaluated, so no ≥5-event history can ever
produce the pattern. -/
theorem five_wpm_events_raise_name_error (events : List AnalyzerEvent)
    (h5 : 5 ≤ (events.filter fun e => e.event_type == "wpm_tracking").length) :
    analyze_event_patterns events
      = .error "NameError: name wmp_values is not defined" :=
  analyze_event_patterns_error_of_five_wpm events h5

/-- Witness for C3 at a concrete failing input: five `wpm_tracking` events
whose wpm values range from 10 to 150 (so `max > 120` — the claim's own
trigger condition holds) make `analyze_event_patterns` return the
`NameError` instead of an `extreme_wpm_variation` pattern. -/
theorem five_wpm_events_raise_name_error_witness :
    5 ≤ (([{ event_type := "wpm_tracking", event_data := { wpm := some 10 }, timestamp := 1000 },
           { event_type := "wpm_tracking", event_data := { wpm := some 20 }, timestamp := 2000 },
           { event_type := "wpm_tracking", event_data := { wpm := some 30 }, timestamp := 3000 },
           { event_type := "wpm_tracking", event_data := { wpm := some 40 }, timestamp := 4000 },
           { event_type := "wpm_tracking", event_data := { wpm := some 150 }, timestamp := 5000 }] :
        List AnalyzerEvent).filter fun e => e.event_type == "wpm_tracking").length ∧
    analyze_event_patterns
        [{ event_type := "wpm_tracking", event_data := { wpm := some 10 }, timestamp := 1000 },
         { event_type := "wpm_tracking", event_data := { wpm := some 20 }, timestamp := 2000 },
         { event_type := "wpm_tracking", event_data := { wpm := some 30 }, timestamp := 3000 },
         { event_type := "wpm_tracking", event_data := { wpm := some 40 }, timestamp := 4000 },
         { event_type := "wpm_tracking", event_data := { wpm := some 150 }, timestamp := 5000 }]
      = .error "NameError: name wmp_values is not defined" := by
  refine ⟨by simp [List.filter], five_wpm_events_raise_name_error _ (by simp [List.filter])⟩

/-- The timeline the analytics loop builds, in closed form. -/
def scored_timeline (rows : List RawEvent) : List TimelineEvent :=
  rows.map fun r =>
    let v := calculate_event_score r.event_type r.event_data
    { event_type := r.event_type, event_data := r.event_data,
      timestamp := r.timestamp, priority := v.priority,
      confidence_score := v.confidence_score, is_flagged := v.is_flagged }

theorem analytics_foldl_total (rows : List RawEvent) (acc : AnalyticsAcc) :
    (rows.foldl analytics_step acc).total_events = acc.total_events + rows.length := by
  induction rows generalizing acc with
  | nil => simp
  | cons r rest ih =>
    rw [List.foldl_cons, ih]
    simp [analytics_step]
    omega

theorem analytics_foldl_flagged (rows : List RawEvent) (acc : AnalyticsAcc) :
    (rows.foldl analytics_step acc).flagged_events
      = acc.flagged_events + rows.countP (fun r =>
          (calculate_event_score r.event_type r.event_data).is_flagged) := by
  induction rows generalizing acc with
  | nil => simp
  | cons r rest ih =>
    rw [List.foldl_cons, ih, List.countP_cons]
    simp only [analytics_step]
    cases (calculate_event_score r.event_type r.event_data).is_flagged <;> simp <;> omega

theorem analytics_foldl_high (rows : List RawEvent) (acc : AnalyticsAcc) :
    (rows.foldl analytics_step acc).high_priority_events
      = acc.high_priority_events + rows.countP (fun r =>
          (calculate_event_score r.event_type r.event_data).is_flagged
            && decide ((calculate_event_score r.event_type r.event_data).priority = 3)) := by
  induction rows generalizing acc with
  | nil => simp
  | cons r rest ih =>
    rw [List.foldl_cons, ih, List.countP_cons]
    simp only [analytics_step]
    cases hf : (calculate_event_score r.event_type r.event_data).is_flagged <;>
      by_cases hp : (calculate_event_score r.event_type r.event_data).priority = 3 <;>
      simp [hf, hp] <;> omega

theorem analytics_foldl_confs (rows : List RawEvent) (acc : AnalyticsAcc) :
    (rows.foldl analytics_step acc).confidence_scores
      = acc.confidence_scores ++ rows.map (fun r =>
          (calculate_event_score r.event_type r.event_data).confidence_score) := by
  induction rows generalizing acc with
  | nil => simp
  | cons r rest ih =>
    rw [List.foldl_cons, ih]
    simp [analytics_step]

theorem analytics_foldl_events (rows : List RawEvent) (acc : AnalyticsAcc) :
    (rows.foldl analytics_step acc).events = acc.events ++ scored_timeline rows := by
  induction rows generalizing acc with
  | nil => simp [scored_timeline]
  | cons r rest ih =>
    rw [List.foldl_cons, ih]
    simp [analytics_step, scored_timeline]

theorem get_exam_analytics_total (rows : List RawEvent) :
    (get_exam_analytics rows).total_events = rows.length := by
  show (rows.foldl analytics_step
    { total_events := 0, flagged_events := 0, high_priority_events := 0,
      confidence_scores := [], events := [] }).total_events = rows.length
  simpa using analytics_foldl_total rows
    { total_events := 0, flagged_events := 0, high_priority_events := 0,
      confidence_scores := [], events := [] }

theorem get_exam_analytics_flagged (rows : List RawEvent) :
    (get_exam_analytics rows).flagged_events
      = rows.countP (fun r =>
          (calculate_event_score r.event_type r.event_data).is_flagged) := by
  show (rows.foldl analytics_step
    { total_events := 0, flagged_events := 0, high_priority_events := 0,
      confidence_scores := [], events := [] }).flagged_events = _
  simpa using analytics_foldl_flagged rows
    { total_events := 0, flagged_events := 0, high_priority_events := 0,
      confidence_scores := [], events := [] }

theorem get_exam_analytics_high (rows : List RawEvent) :
    (get_exam_analytics rows).high_priority_events
      = rows.countP (fun r =>
          (calculate_event_score r.event_type r.event_data).is_flagged
            && decide ((calculate_event_score r.event_type r.event_data).priority = 3)) := by
  show (rows.foldl analytics_step
    { total_events := 0, flagged_events := 0, high_priority_events := 0,
      confidence_scores := [], events := [] }).high_priority_events = _
  simpa using analytics_foldl_high rows
    { total_events := 0, flagged_events := 0, high_priority_events := 0,
      confidence_scores := [], events := [] }

theorem get_exam_analytics_timeline (rows : List RawEvent) :
    (get_exam_analytics rows).timeline_events = scored_timeline rows := by
  show (rows.foldl analytics_step
    { total_events := 0, flagged_events := 0, high_priority_events := 0,
      confidence_scores := [], events := [] }).events = scored_timeline rows
  simpa using analytics_foldl_events rows
    { total_events := 0, flagged_events := 0, high_priority_events := 0,
      confidence_scores := [], events := [] }

theorem get_exam_analytics_avg (rows : List RawEvent) :
    (get_exam_analytics rows).average_confidence_score
      = if rows.isEmpty then 0
        else (rows.map fun r =>
            (calculate_event_score r.event_type r.event_data).confidence_score).sum
          / rows.length := by
  simp only [get_exam_analytics, analytics_foldl_confs]
  rcases rows with _ | ⟨r, rest⟩
  · simp
  · simp

theorem get_exam_analytics_score (rows : List RawEvent) :
    (get_exam_analytics rows).suspicious_activity_score
      = if rows.isEmpty then 0
        else min 1 ((rows.countP (fun r =>
            (calculate_event_score r.event_type r.event_data).is_flagged) : ℚ)
          / rows.length * 2) := by
  simp only [get_exam_analytics, analytics_foldl_total, analytics_foldl_flagged]
  rcases rows with _ | ⟨r, rest⟩
  · simp
  · have h1 : (1:ℕ) ≤ (r :: rest).length := by simp
    simp [Nat.max_eq_left h1]

theorem get_exam_analytics_patterns (rows : List RawEvent) :
    (get_exam_analytics rows).suspicious_patterns
      = match analyze_event_patterns (analytics_events rows) with
        | .ok r => r.patterns.map fun p =>
            { pattern := p.type, severity := p.severity,
              description := p.description, details := p }
        | .error _ => [] := by
  have harg : ((rows.foldl analytics_step
      { total_events := 0, flagged_events := 0, high_priority_events := 0,
        confidence_scores := [], events := [] }).events.map fun e =>
      { event_type := e.event_type, event_data := e.event_data,
        timestamp := e.timestamp, confidence_score := e.confidence_score : AnalyzerEvent })
      = analytics_events rows := by
    rw [analytics_foldl_events rows
      { total_events := 0, flagged_events := 0, high_priority_events := 0,
        confidence_scores := [], events := [] }]
    simp [scored_timeline, analytics_events, List.map_map]
  simp only [get_exam_analytics]
  rw [harg]

/-- C4.  Pattern-analysis failure degradation: whenever
`analyze_event_patterns` raises on the event list the analytics endpoint
hands it, the endpoint still returns the full payload — an empty
`suspicious_patterns` list, with `total_events`, `flagged_events`, the
average confidence, the suspicious-activity score and the timeline all
computed as usual. -/
theorem pattern_failure_degrades_to_empty_list (rows : List RawEvent)
    (msg : String)
    (herr : analyze_event_patterns (analytics_events rows) = .error msg) :
    (get_exam_analytics rows).suspicious_patterns = [] ∧
    (get_exam_analytics rows).total_events = rows.length ∧
    (get_exam_analytics rows).flagged_events
      = rows.countP (fun r =>
          (calculate_event_score r.event_type r.event_data).is_flagged) ∧
    (get_exam_analytics rows).average_confidence_score
      = (if rows.isEmpty then 0
         else (rows.map fun r =>
             (calculate_event_score r.event_type r.event_data).confidence_score).sum
           / rows.length) ∧
    (get_exam_analytics rows).suspicious_activity_score
      = (if rows.isEmpty then 0
         else min 1 ((rows.countP (fun r =>
             (calculate_event_score r.event_type r.event_data).is_flagged) : ℚ)
           / rows.length * 2)) ∧
    (get_exam_analytics rows).timeline_events = scored_timeline rows := by
  refine ⟨?_, get_exam_analytics_total rows, get_exam_analytics_flagged rows,
    get_exam_analytics_avg rows, get_exam_analytics_score rows,
    get_exam_analytics_timeline rows⟩
  rw [get_exam_analytics_patterns rows, herr]

/-- Witness for C4: five stored `wpm_tracking` events make the pattern
analysis raise (the `wmp_values` NameError), yet the analytics payload is
still produced, with an empty pattern list and the usual totals. -/
theorem pattern_failure_degrades_to_empty_list_witness :
    analyze_event_patterns (analytics_events
        [{ event_type := "wpm_tracking", event_data := {}, timestamp := 1000 },
         { event_type := "wpm_tracking", event_data := {}, timestamp := 2000 },
         { event_type := "wpm_tracking", event_data := {}, timestamp := 3000 },
         { event_type := "wpm_tracking", event_data := {}, timestamp := 4000 },
         { event_type := "wpm_tracking", event_data := {}, timestamp := 5000 }])
      = .error "NameError: name wmp_values is not defined" ∧
    (get_exam_analytics
        [{ event_type := "wpm_tracking", event_data := {}, timestamp := 1000 },
         { event_type := "wpm_tracking", event_data := {}, timestamp := 2000 },
         { event_type := "wpm_tracking", event_data := {}, timestamp := 3000 },
         { event_type := "wpm_tracking", event_data := {}, timestamp := 4000 },
         { event_type := "wpm_tracking", event_data := {}, timestamp := 5000 }]).suspicious_patterns
      = [] ∧
    (get_exam_analytics
        [{ event_type := "wpm_tracking", event_data := {}, timestamp := 1000 },
         { event_type := "wpm_tracking", event_data := {}, timestamp := 2000 },
         { event_type := "wpm_tracking", event_data := {}, timestamp := 3000 },
         { event_type := "wpm_tracking", event_data := {}, timestamp := 4000 },
         { event_type := "wpm_tracking", event_data := {}, timestamp := 5000 }]).total_events
      = 5 := by
  have herr := analyze_event_patterns_error_of_five_wpm
    (analytics_events
      [{ event_type := "wpm_tracking", event_data := {}, timestamp := 1000 },
       { event_type := "wpm_tracking", event_data := {}, timestamp := 2000 },
       { event_type := "wpm_tracking", event_data := {}, timestamp := 3000 },
       { event_type := "wpm_tracking", event_data := {}, timestamp := 4000 },
       { event_type := "wpm_tracking", event_data := {}, timestamp := 5000 }])
    (by simp [analytics_events, List.filter])
  have h := pattern_failure_degrades_to_empty_list _ _ herr
  exact ⟨herr, h.1, by rw [h.2.1]; rfl⟩

/-- C9.  Suspicious activity score formula: for a session with stored
events the analytics payload's `suspicious_activity_score` equals
`min(1.0, flagged_events / total_events * 2)` where `total_events` is the
number of stored events and `flagged_events` counts the events the
classifier flags; for a session with no events it equals `0.0`. -/
theorem suspicious_activity_score_formula (rows : List RawEvent) :
    (rows = [] → (get_exam_analytics rows).suspicious_activity_score = 0) ∧
    (rows ≠ [] → (get_exam_analytics rows).suspicious_activity_score
      = min 1 ((rows.countP (fun r =>
          (calculate_event_score r.event_type r.event_data).is_flagged) : ℚ)
        / rows.length * 2)) := by
  constructor
  · intro h
    subst h
    simp [get_exam_analytics_score]
  · intro h
    rw [get_exam_analytics_score, if_neg]
    simpa using h

/-- Witness for C9: the empty session scores `0`, and a session whose only
event is a flagged 600-character `clipboard_paste` scores
`min(1, 1/1 * 2) = 1`. -/
theorem suspicious_activity_score_formula_witness :
    (get_exam_analytics []).suspicious_activity_score = 0 ∧
    (get_exam_analytics
        [{ event_type := "clipboard_paste", event_data := { length := some 600 },
           timestamp := 0 }]).suspicious_activity_score
      = 1 := by
  constructor
  · exact (suspicious_activity_score_formula []).1 rfl
  · have h := (suspicious_activity_score_formula
      [{ event_type := "clipboard_paste",
         event_data := { length := some 600 }, timestamp := 0 }]).2 (by simp)
    rw [h]
    have hflag : (calculate_event_score "clipboard_paste"
        { length := some 600 }).is_flagged = true := by
      simp [calculate_event_score, calculate_enhanced_confidence, base_event_info,
        should_flag_event, clamp01, HIGH_PRIORITY_EVENTS, List.lookup]
      norm_num
    simp [List.countP_cons, hflag]

theorem get_event_summary_high (rows : List RawEvent) :
    (get_event_summary (score_exam_events rows)).high_priority_events
      = rows.countP (fun r =>
          (calculate_event_score r.event_type r.event_data).priority == 3) := by
  rcases rows with _ | ⟨r, rest⟩
  · simp [get_event_summary, score_exam_events]
  · have hne : (score_exam_events (r :: rest)).isEmpty = false := by
      simp [score_exam_events]
    simp only [get_event_summary, hne, Bool.false_eq_true, if_false,
      score_exam_events, List.countP_map]
    rfl

/-- C10.  The analytics endpoint's `high_priority_events` counts only
events that are both flagged and of priority 3, whereas
`get_event_summary`'s `high_priority_events` counts every priority-3
event regardless of flagging; a priority-3 event whose confidence is at
most 0.6 (a `content_similarity` event with `similarity_score = 0.5`) is
unflagged, so on that one-event history the endpoint reports 0 and the
summary reports 1. -/
theorem high_priority_count_semantics_differ :
    (∀ rows : List RawEvent, (get_exam_analytics rows).high_priority_events
        = rows.countP (fun r =>
            (calculate_event_score r.event_type r.event_data).is_flagged
              && decide ((calculate_event_score r.event_type r.event_data).priority = 3))) ∧
    (∀ rows : List RawEvent,
      (get_event_summary (score_exam_events rows)).high_priority_events
        = rows.countP (fun r =>
            (calculate_event_score r.event_type r.event_data).priority == 3)) ∧
    (get_exam_analytics
        [{ event_type := "content_similarity",
           event_data := { similarity_score := some (1/2) },
           timestamp := 0 }]).high_priority_events
      ≠ (get_event_summary (score_exam_events
          [{ event_type := "content_similarity",
             event_data := { similarity_score := some (1/2) },
             timestamp := 0 }])).high_priority_events := by
  refine ⟨fun rows => get_exam_analytics_high rows,
    fun rows => get_event_summary_high rows, ?_⟩
  rw [get_exam_analytics_high, get_event_summary_high]
  have hv : calculate_event_score "content_similarity"
      { similarity_score := some (1/2) }
      = { priority := 3, confidence_score := 1/2, is_flagged := false,
          description := "Text similarity to external sources" } := by
    simp [calculate_event_score, calculate_enhanced_confidence, base_event_info,
      should_flag_event, clamp01, HIGH_PRIORITY_EVENTS, List.lookup,
      ScoredVerdict.mk.injEq]
    norm_num
  simp only [List.countP_cons, List.countP_nil, hv]
  simp
